import Mathlib

/-!
# Ledger Service: shallow embedding of the banking GraphQL app

This file embeds the data model (`app/models.py`) and the operations
(`app/graphql_schema.py`) of the banking repository and proves the frozen
claims about them.

Modelling decisions:
* The SQLite tables become Lean lists of rows; the autoincrement primary
  keys become explicit counters in the `DB` state.
* SQLAlchemy `Float` columns are modelled as exact rationals `ℚ`.
* `db.query(T).filter(T.id == x).first()` becomes `List.find?` on the row
  list, returning the first row whose id matches.
* A Python `raise ValueError(msg)` becomes an `Except.error` carrying the
  typed error of the spec taxonomy together with the source message; since
  every raise in the source occurs before any row mutation and before
  `db.commit()`, a failing call leaves the store untouched, which the
  `Except`-style state passing captures by not producing a new `DB`.
* In-place attribute mutation of a row object fetched by `.first()`
  (`from_account.balance -= amount`) becomes `updateFirst`, which rewrites
  the first row with the given id.  The SQLAlchemy session identity map
  means that fetching the same id twice yields the same object, and
  `updateFirst` applied twice with the same id updates the same row, which
  matches that aliasing.
* The GraphQL response types `CustomerType`, `AccountType`,
  `TransactionType` are embedded structurally; the read operations return
  the response together with the (unchanged) store, mirroring that the
  Python resolvers only query.
-/

/-- Row of the `customers` table (`models.Customer`). -/
structure Customer where
  id : Nat
  name : String
deriving DecidableEq, Repr

/-- Row of the `accounts` table (`models.Account`). -/
structure Account where
  id : Nat
  customer_id : Nat
  balance : ℚ
deriving DecidableEq, Repr

/-- Row of the `transactions` table (`models.Transaction`). -/
structure Transaction where
  id : Nat
  from_account_id : Nat
  to_account_id : Nat
  amount : ℚ
deriving DecidableEq, Repr

/-- The persistent store: the three tables plus the autoincrement
primary-key counters of SQLite. -/
structure DB where
  customers : List Customer
  accounts : List Account
  transactions : List Transaction
  nextCustomerId : Nat
  nextAccountId : Nat
  nextTransactionId : Nat
deriving DecidableEq, Repr

/-- Error taxonomy of the spec (§7); each constructor carries the literal
message of the `ValueError` raised in `graphql_schema.py`. -/
inductive LedgerError where
  | NotFoundError (msg : String)
  | InsufficientFundsError (msg : String)
  | ValidationError (msg : String)
deriving DecidableEq, Repr

/-- GraphQL type `CustomerType`. -/
structure CustomerType where
  id : Nat
  name : String
deriving DecidableEq, Repr

/-- GraphQL type `AccountType`. -/
structure AccountType where
  id : Nat
  balance : ℚ
  customer : CustomerType
deriving DecidableEq, Repr

/-- GraphQL type `TransactionType`. -/
structure TransactionType where
  id : Nat
  from_account : AccountType
  to_account : AccountType
  amount : ℚ
deriving DecidableEq, Repr

/-- `db.query(Customer).filter(Customer.id == cid).first()`. -/
def findCustomer (db : DB) (cid : Nat) : Option Customer :=
  db.customers.find? (fun c => c.id == cid)

/-- `db.query(Account).filter(Account.id == aid).first()`. -/
def findAccount (db : DB) (aid : Nat) : Option Account :=
  db.accounts.find? (fun a => a.id == aid)

/-- In-place mutation of the balance of the row object returned by
`.first()` for the given id: rewrites the first row whose id matches. -/
def updateFirst (l : List Account) (aid : Nat) (f : ℚ → ℚ) : List Account :=
  match l with
  | [] => []
  | a :: rest =>
    if a.id == aid then { a with balance := f a.balance } :: rest
    else a :: updateFirst rest aid f

/-- Resolver `Query.accounts` builds, for one account row, the nested
`AccountType(id, balance, customer=CustomerType(...))`; `a.customer` is the
relationship lookup by `a.customer_id` (`None` propagates as failure). -/
def accountView (db : DB) (a : Account) : Option AccountType :=
  (db.customers.find? (fun c => c.id == a.customer_id)).map
    (fun c => AccountType.mk a.id a.balance (CustomerType.mk c.id c.name))

/-- Resolver `Query.transactions` builds, for one transaction row, the
nested `TransactionType` with both accounts fully expanded. -/
def transactionView (db : DB) (t : Transaction) : Option TransactionType :=
  match findAccount db t.from_account_id, findAccount db t.to_account_id with
  | some fa, some ta =>
    match accountView db fa, accountView db ta with
    | some fav, some tav => some (TransactionType.mk t.id fav tav t.amount)
    | _, _ => none
  | _, _ => none

namespace Query

/-- `Query.customers`: list all customers.  Returns the projection and the
store, which it does not modify. -/
def customers (db : DB) : List CustomerType × DB :=
  (db.customers.map (fun c => CustomerType.mk c.id c.name), db)

/-- `Query.accounts`: list all accounts with their owning customer. -/
def accounts (db : DB) : Option (List AccountType) × DB :=
  (db.accounts.mapM (accountView db), db)

/-- `Query.transactions`: list all transactions with both accounts
expanded. -/
def transactions (db : DB) : Option (List TransactionType) × DB :=
  (db.transactions.mapM (transactionView db), db)

end Query

namespace Mutation

/-- `Mutation.create_customer`: insert a customer row with the given name
(no validation), return the created entity.  It never fails. -/
def create_customer (db : DB) (name : String) : CustomerType × DB :=
  let new_customer : Customer := Customer.mk db.nextCustomerId name
  (CustomerType.mk new_customer.id new_customer.name,
   { db with
       customers := db.customers ++ [new_customer],
       nextCustomerId := db.nextCustomerId + 1 })

/-- `Mutation.create_account`: look up the customer; raise
`ValueError("Customer not found")` if absent; otherwise insert an account
row with the given balance and return it with the customer summary. -/
def create_account (db : DB) (customer_id : Nat) (initial_balance : ℚ) :
    Except LedgerError (AccountType × DB) :=
  match findCustomer db customer_id with
  | none => Except.error (LedgerError.NotFoundError "Customer not found")
  | some customer =>
    let new_account : Account := Account.mk db.nextAccountId customer_id initial_balance
    Except.ok
      (AccountType.mk new_account.id new_account.balance
        (CustomerType.mk customer.id customer.name),
       { db with
           accounts := db.accounts ++ [new_account],
           nextAccountId := db.nextAccountId + 1 })

/-- `Mutation.transfer_funds`: load both accounts by id; raise
`ValueError("Account not found")` if either is missing; raise
`ValueError("Insufficient balance")` if `from_account.balance < amount`;
otherwise decrement the source row, increment the destination row, insert
one transaction row, commit, and return `True`. -/
def transfer_funds (db : DB) (from_account_id to_account_id : Nat) (amount : ℚ) :
    Except LedgerError (Bool × DB) :=
  match findAccount db from_account_id, findAccount db to_account_id with
  | none, _ => Except.error (LedgerError.NotFoundError "Account not found")
  | some _, none => Except.error (LedgerError.NotFoundError "Account not found")
  | some from_account, some _to_account =>
    if from_account.balance < amount then
      Except.error (LedgerError.InsufficientFundsError "Insufficient balance")
    else
      let accounts1 := updateFirst db.accounts from_account_id (fun b => b - amount)
      let accounts2 := updateFirst accounts1 to_account_id (fun b => b + amount)
      let new_transaction : Transaction :=
        Transaction.mk db.nextTransactionId from_account_id to_account_id amount
      Except.ok
        (true,
         { db with
             accounts := accounts2,
             transactions := db.transactions ++ [new_transaction],
             nextTransactionId := db.nextTransactionId + 1 })

end Mutation

/-! ## Helper lemmas about `updateFirst` and `find?` -/

/-- `updateFirst` on a cons whose head matches rewrites the head. -/
theorem updateFirst_cons_pos (b : Account) (rest : List Account) (aid : Nat)
    (f : ℚ → ℚ) (h : b.id = aid) :
    updateFirst (b :: rest) aid f = { b with balance := f b.balance } :: rest := by
  simp [updateFirst, h]

/-- `updateFirst` on a cons whose head does not match keeps the head. -/
theorem updateFirst_cons_neg (b : Account) (rest : List Account) (aid : Nat)
    (f : ℚ → ℚ) (h : ¬ b.id = aid) :
    updateFirst (b :: rest) aid f = b :: updateFirst rest aid f := by
  simp [updateFirst, h]

/-- Looking up the updated id after `updateFirst`: the first matching row is
the old first matching row with its balance rewritten. -/
theorem find?_updateFirst_same (l : List Account) (aid : Nat) (f : ℚ → ℚ) :
    (updateFirst l aid f).find? (fun a => a.id == aid) =
      (l.find? (fun a => a.id == aid)).map (fun a => { a with balance := f a.balance }) := by
  induction l with
  | nil => rfl
  | cons b rest ih =>
    by_cases hb : b.id = aid
    · rw [updateFirst_cons_pos b rest aid f hb]
      rw [List.find?_cons_of_pos rest (by simp [hb]),
        List.find?_cons_of_pos rest (by simp [hb])]
      rfl
    · rw [updateFirst_cons_neg b rest aid f hb]
      rw [List.find?_cons_of_neg (updateFirst rest aid f) (by simp [hb]),
        List.find?_cons_of_neg rest (by simp [hb])]
      exact ih

/-- `updateFirst` with one id does not disturb lookups of a different id. -/
theorem find?_updateFirst_other (l : List Account) (aid bid : Nat) (f : ℚ → ℚ)
    (h : bid ≠ aid) :
    (updateFirst l aid f).find? (fun a => a.id == bid) =
      l.find? (fun a => a.id == bid) := by
  induction l with
  | nil => rfl
  | cons b rest ih =>
    by_cases hb : b.id = aid
    · have hbb : ¬ b.id = bid := fun hh => h (hh ▸ hb ▸ rfl)
      rw [updateFirst_cons_pos b rest aid f hb]
      rw [List.find?_cons_of_neg rest (by simp [hbb]),
        List.find?_cons_of_neg rest (by simp [hbb])]
    · rw [updateFirst_cons_neg b rest aid f hb]
      by_cases hbb : b.id = bid
      · rw [List.find?_cons_of_pos (updateFirst rest aid f) (by simp [hbb]),
          List.find?_cons_of_pos rest (by simp [hbb])]
      · rw [List.find?_cons_of_neg (updateFirst rest aid f) (by simp [hbb]),
          List.find?_cons_of_neg rest (by simp [hbb])]
        exact ih

/-- Every row of `updateFirst l aid f` is either an untouched row of `l` or
the rewrite of the first row of `l` whose id is `aid`. -/
theorem mem_updateFirst (l : List Account) (aid : Nat) (f : ℚ → ℚ) :
    ∀ x ∈ updateFirst l aid f,
      x ∈ l ∨ ∃ a, l.find? (fun a => a.id == aid) = some a ∧
        x = { a with balance := f a.balance } := by
  induction l with
  | nil => intro x hx; cases hx
  | cons b rest ih =>
    intro x hx
    by_cases hb : b.id = aid
    · rw [updateFirst_cons_pos b rest aid f hb] at hx
      rcases List.mem_cons.mp hx with hx | hx
      · right
        exact ⟨b, List.find?_cons_of_pos rest (by simp [hb]), hx⟩
      · left; exact List.mem_cons_of_mem _ hx
    · rw [updateFirst_cons_neg b rest aid f hb] at hx
      rcases List.mem_cons.mp hx with hx | hx
      · left; exact hx ▸ List.mem_cons_self b rest
      · rcases ih x hx with hmem | ⟨a, hfind, hxa⟩
        · left; exact List.mem_cons_of_mem _ hmem
        · right
          refine ⟨a, ?_, hxa⟩
          rw [List.find?_cons_of_neg rest (by simp [hb])]
          exact hfind

/-- When both accounts are found and the balance check passes,
`transfer_funds` performs exactly the two row rewrites and the one insert
of the source. -/
theorem transfer_funds_ok (db : DB) (fid tid : Nat) (amount : ℚ) (fa ta : Account)
    (hf : findAccount db fid = some fa)
    (ht : findAccount db tid = some ta)
    (hbal : ¬ fa.balance < amount) :
    Mutation.transfer_funds db fid tid amount =
      Except.ok (true,
        { db with
            accounts := updateFirst (updateFirst db.accounts fid (fun b => b - amount))
              tid (fun b => b + amount),
            transactions := db.transactions ++
              [Transaction.mk db.nextTransactionId fid tid amount],
            nextTransactionId := db.nextTransactionId + 1 }) := by
  unfold Mutation.transfer_funds
  rw [hf, ht]
  simp [hbal]

/-- If all balances of `l` are non-negative and the rewrite keeps the first
matching row non-negative, all balances of `updateFirst l aid f` are
non-negative. -/
theorem updateFirst_nonneg (l : List Account) (aid : Nat) (f : ℚ → ℚ)
    (hl : ∀ x ∈ l, 0 ≤ x.balance)
    (hf : ∀ a, l.find? (fun a => a.id == aid) = some a → 0 ≤ f a.balance) :
    ∀ x ∈ updateFirst l aid f, 0 ≤ x.balance := by
  intro x hx
  rcases mem_updateFirst l aid f x hx with hmem | ⟨a, hfind, hxa⟩
  · exact hl x hmem
  · rw [hxa]
    exact hf a hfind

/-- Core effect of a successful transfer between two rows with distinct
ids: the source row loses `amount`, the destination row gains `amount`, and
one transaction row is appended.  Shared by several claim proofs. -/
theorem transfer_distinct_effect (db : DB) (A B : Account) (amount : ℚ)
    (hA : findAccount db A.id = some A)
    (hB : findAccount db B.id = some B)
    (hne : A.id ≠ B.id)
    (hbal : ¬ A.balance < amount) :
    ∃ db2 : DB,
      Mutation.transfer_funds db A.id B.id amount = Except.ok (true, db2) ∧
      findAccount db2 A.id = some { A with balance := A.balance - amount } ∧
      findAccount db2 B.id = some { B with balance := B.balance + amount } ∧
      db2.transactions = db.transactions ++
        [Transaction.mk db.nextTransactionId A.id B.id amount] := by
  refine ⟨_, transfer_funds_ok db A.id B.id amount A B hA hB hbal, ?_, ?_, rfl⟩
  · show (updateFirst (updateFirst db.accounts A.id (fun b => b - amount))
        B.id (fun b => b + amount)).find? (fun a => a.id == A.id) = _
    rw [find?_updateFirst_other _ B.id A.id _ hne, find?_updateFirst_same]
    rw [show db.accounts.find? (fun a => a.id == A.id) = some A from hA]
    rfl
  · show (updateFirst (updateFirst db.accounts A.id (fun b => b - amount))
        B.id (fun b => b + amount)).find? (fun a => a.id == B.id) = _
    rw [find?_updateFirst_same, find?_updateFirst_other _ A.id B.id _ (Ne.symm hne)]
    rw [show db.accounts.find? (fun a => a.id == B.id) = some B from hB]
    rfl

/-! ## Claim theorems -/

/-- C1: for every pair of distinct existing accounts A and B and every
amount with A.balance >= amount >= 0, transferFunds(A, B, amount) succeeds:
A's balance decreases by amount, B's balance increases by amount, exactly
one new Transaction row is inserted recording
(fromAccountId, toAccountId, amount), and the operation returns true. -/
theorem C1_transfer_success (db : DB) (A B : Account) (amount : ℚ)
    (hA : findAccount db A.id = some A)
    (hB : findAccount db B.id = some B)
    (hne : A.id ≠ B.id)
    (_h0 : 0 ≤ amount)
    (hbal : amount ≤ A.balance) :
    ∃ db2 : DB,
      Mutation.transfer_funds db A.id B.id amount = Except.ok (true, db2) ∧
      findAccount db2 A.id = some { A with balance := A.balance - amount } ∧
      findAccount db2 B.id = some { B with balance := B.balance + amount } ∧
      db2.transactions = db.transactions ++
        [Transaction.mk db.nextTransactionId A.id B.id amount] :=
  transfer_distinct_effect db A B amount hA hB hne (not_lt.mpr hbal)

/-- C1 witness: concrete instantiation. -/
theorem C1_transfer_success_witness :
    ∃ db2 : DB,
      Mutation.transfer_funds
        (DB.mk [Customer.mk 1 "Alice", Customer.mk 2 "Bob"]
          [Account.mk 1 1 100, Account.mk 2 2 0] [] 3 3 1) 1 2 40 =
        Except.ok (true, db2) ∧
      findAccount db2 1 = some (Account.mk 1 1 60) ∧
      findAccount db2 2 = some (Account.mk 2 2 40) ∧
      db2.transactions = [Transaction.mk 1 1 2 40] := by
  obtain ⟨db2, h1, h2, h3, h4⟩ :=
    C1_transfer_success
      (DB.mk [Customer.mk 1 "Alice", Customer.mk 2 "Bob"]
        [Account.mk 1 1 100, Account.mk 2 2 0] [] 3 3 1)
      (Account.mk 1 1 100) (Account.mk 2 2 0) 40 (by decide) (by decide)
      (by decide) (by norm_num) (by norm_num)
  rw [show (100:ℚ) - 40 = 60 from by norm_num] at h2
  rw [show (0:ℚ) + 40 = 40 from by norm_num] at h3
  exact ⟨db2, h1, h2, h3, by simpa using h4⟩

/-- C2: for every pair of existing accounts A and B,
transferFunds(A, B, amount) with amount > A.balance fails with
InsufficientFundsError, leaves both account balances unchanged, and creates
no Transaction row.  (In this embedding a failing call returns only the
error and no new store, so the store is unchanged by construction.) -/
theorem C2_insufficient_funds (db : DB) (A B : Account) (amount : ℚ)
    (hA : findAccount db A.id = some A)
    (hB : findAccount db B.id = some B)
    (h : A.balance < amount) :
    Mutation.transfer_funds db A.id B.id amount =
      Except.error (LedgerError.InsufficientFundsError "Insufficient balance") := by
  unfold Mutation.transfer_funds
  rw [hA, hB]
  simp [h]

/-- C2 witness: concrete instantiation. -/
theorem C2_insufficient_funds_witness :
    Mutation.transfer_funds
      (DB.mk [Customer.mk 1 "Alice", Customer.mk 2 "Bob"]
        [Account.mk 1 1 60, Account.mk 2 2 40] [] 3 3 1) 1 2 1000 =
      Except.error (LedgerError.InsufficientFundsError "Insufficient balance") :=
  C2_insufficient_funds
    (DB.mk [Customer.mk 1 "Alice", Customer.mk 2 "Bob"]
      [Account.mk 1 1 60, Account.mk 2 2 40] [] 3 3 1)
    (Account.mk 1 1 60) (Account.mk 2 2 40) 1000 (by decide) (by decide) (by norm_num)

/-- C3: for every call transferFunds(fromAccountId, toAccountId, amount) in
which at least one of the two account ids does not name an existing Account,
the operation fails with NotFoundError, leaves every account balance
unchanged, and creates no Transaction row.  (A failing call returns only
the error and no new store.) -/
theorem C3_not_found (db : DB) (fid tid : Nat) (amount : ℚ)
    (h : findAccount db fid = none ∨ findAccount db tid = none) :
    Mutation.transfer_funds db fid tid amount =
      Except.error (LedgerError.NotFoundError "Account not found") := by
  unfold Mutation.transfer_funds
  rcases h with h | h
  · rw [h]
  · rw [h]
    cases findAccount db fid with
    | none => rfl
    | some fa => rfl

/-- C3 witness: concrete instantiation. -/
theorem C3_not_found_witness :
    Mutation.transfer_funds
      (DB.mk [Customer.mk 1 "Alice"] [Account.mk 1 1 100] [] 2 2 1) 1 7 5 =
      Except.error (LedgerError.NotFoundError "Account not found") :=
  C3_not_found (DB.mk [Customer.mk 1 "Alice"] [Account.mk 1 1 100] [] 2 2 1)
    1 7 5 (Or.inr (by decide))

/-- C9: for every existing account A with A.balance >= amount, the
self-transfer transferFunds(A, A, amount) succeeds, returns true, leaves
A's balance unchanged (the decrement and increment apply to the same row
and cancel), and still inserts one Transaction row with source A,
destination A, and the given amount. -/
theorem C9_self_transfer (db : DB) (A : Account) (amount : ℚ)
    (hA : findAccount db A.id = some A)
    (hbal : amount ≤ A.balance) :
    ∃ db2 : DB,
      Mutation.transfer_funds db A.id A.id amount = Except.ok (true, db2) ∧
      findAccount db2 A.id = some A ∧
      db2.transactions = db.transactions ++
        [Transaction.mk db.nextTransactionId A.id A.id amount] := by
  refine ⟨_, transfer_funds_ok db A.id A.id amount A A hA hA (not_lt.mpr hbal), ?_, rfl⟩
  show (updateFirst (updateFirst db.accounts A.id (fun b => b - amount))
      A.id (fun b => b + amount)).find? (fun a => a.id == A.id) = _
  rw [find?_updateFirst_same, find?_updateFirst_same]
  rw [show db.accounts.find? (fun a => a.id == A.id) = some A from hA]
  show some { A with balance := A.balance - amount + amount } = some A
  rw [show A.balance - amount + amount = A.balance from by ring]

/-- C9 witness: concrete instantiation. -/
theorem C9_self_transfer_witness :
    ∃ db2 : DB,
      Mutation.transfer_funds
        (DB.mk [Customer.mk 1 "Alice"] [Account.mk 1 1 100] [] 2 2 1) 1 1 30 =
        Except.ok (true, db2) ∧
      findAccount db2 1 = some (Account.mk 1 1 100) ∧
      db2.transactions = [Transaction.mk 1 1 1 30] := by
  obtain ⟨db2, h1, h2, h3⟩ :=
    C9_self_transfer (DB.mk [Customer.mk 1 "Alice"] [Account.mk 1 1 100] [] 2 2 1)
      (Account.mk 1 1 100) 30 (by decide) (by norm_num)
  exact ⟨db2, h1, h2, by simpa using h3⟩

/-- C10: for every pair of distinct existing accounts A and B and every
negative amount with A.balance >= amount, transferFunds(A, B, amount) is
not rejected: it succeeds, increases A's balance by the absolute value of
amount, decreases B's balance by that absolute value (possibly below
zero), and records a Transaction row with the negative amount. -/
theorem C10_negative_amount (db : DB) (A B : Account) (amount : ℚ)
    (hA : findAccount db A.id = some A)
    (hB : findAccount db B.id = some B)
    (hne : A.id ≠ B.id)
    (hneg : amount < 0)
    (hbal : amount ≤ A.balance) :
    ∃ db2 : DB,
      Mutation.transfer_funds db A.id B.id amount = Except.ok (true, db2) ∧
      findAccount db2 A.id = some { A with balance := A.balance + |amount| } ∧
      findAccount db2 B.id = some { B with balance := B.balance - |amount| } ∧
      db2.transactions = db.transactions ++
        [Transaction.mk db.nextTransactionId A.id B.id amount] := by
  obtain ⟨db2, h1, h2, h3, h4⟩ :=
    transfer_distinct_effect db A B amount hA hB hne (not_lt.mpr hbal)
  refine ⟨db2, h1, ?_, ?_, h4⟩
  · rw [h2, show A.balance - amount = A.balance + |amount| from by
      rw [abs_of_neg hneg]; ring]
  · rw [h3, show B.balance + amount = B.balance - |amount| from by
      rw [abs_of_neg hneg]; ring]

/-- C10 witness: concrete instantiation with a destination pushed below
zero. -/
theorem C10_negative_amount_witness :
    ∃ db2 : DB,
      Mutation.transfer_funds
        (DB.mk [Customer.mk 1 "Alice", Customer.mk 2 "Bob"]
          [Account.mk 1 1 10, Account.mk 2 2 3] [] 3 3 1) 1 2 (-5) =
        Except.ok (true, db2) ∧
      findAccount db2 1 = some (Account.mk 1 1 15) ∧
      findAccount db2 2 = some (Account.mk 2 2 (-2)) ∧
      db2.transactions = [Transaction.mk 1 1 2 (-5)] := by
  obtain ⟨db2, h1, h2, h3, h4⟩ :=
    C10_negative_amount
      (DB.mk [Customer.mk 1 "Alice", Customer.mk 2 "Bob"]
        [Account.mk 1 1 10, Account.mk 2 2 3] [] 3 3 1)
      (Account.mk 1 1 10) (Account.mk 2 2 3) (-5) (by decide) (by decide)
      (by decide) (by norm_num) (by norm_num)
  rw [show (10:ℚ) + |(-5:ℚ)| = 15 from by
    rw [abs_of_neg (by norm_num : (-5:ℚ) < 0)]; norm_num] at h2
  rw [show (3:ℚ) - |(-5:ℚ)| = -2 from by
    rw [abs_of_neg (by norm_num : (-5:ℚ) < 0)]; norm_num] at h3
  exact ⟨db2, h1, h2, h3, by simpa using h4⟩
/-- Inversion of a successful `create_account`: the account table gained
exactly the one new row. -/
theorem create_account_ok_inv (db : DB) (cid : Nat) (b : ℚ) (res : AccountType)
    (db2 : DB)
    (h : Mutation.create_account db cid b = Except.ok (res, db2)) :
    db2.accounts = db.accounts ++ [Account.mk db.nextAccountId cid b] := by
  unfold Mutation.create_account at h
  split at h
  · exact absurd h (by simp)
  · simp only [Except.ok.injEq, Prod.mk.injEq] at h
    obtain ⟨-, h2⟩ := h
    rw [← h2]

/-- Inversion of a successful `transfer_funds`: both accounts were found,
the balance check passed, and the account table is the double rewrite. -/
theorem transfer_funds_ok_inv (db : DB) (fid tid : Nat) (amount : ℚ)
    (res : Bool) (db2 : DB)
    (h : Mutation.transfer_funds db fid tid amount = Except.ok (res, db2)) :
    ∃ fa ta, findAccount db fid = some fa ∧ findAccount db tid = some ta ∧
      ¬ fa.balance < amount ∧
      db2.accounts = updateFirst (updateFirst db.accounts fid (fun b => b - amount))
        tid (fun b => b + amount) := by
  unfold Mutation.transfer_funds at h
  split at h
  · exact absurd h (by simp)
  · exact absurd h (by simp)
  · rename_i fa ta hfa hta
    split at h
    · exact absurd h (by simp)
    · rename_i hlt
      simp only [Except.ok.injEq, Prod.mk.injEq] at h
      obtain ⟨-, h2⟩ := h
      exact ⟨fa, ta, hfa, hta, hlt, by rw [← h2]⟩

/-- C4 counterexample: in a store whose accounts all have non-negative
balances, the successful operation createAccount(1, -1) produces a store
containing an account with a negative balance, because `create_account`
performs no non-negativity check on the initial balance. -/
theorem C4_counterexample :
    (∀ x ∈ (DB.mk [Customer.mk 1 "Alice"] [] [] 2 1 1 : DB).accounts,
        0 ≤ x.balance) ∧
    Mutation.create_account (DB.mk [Customer.mk 1 "Alice"] [] [] 2 1 1) 1 (-1) =
      Except.ok (AccountType.mk 1 (-1) (CustomerType.mk 1 "Alice"),
        DB.mk [Customer.mk 1 "Alice"] [Account.mk 1 1 (-1)] [] 2 2 1) ∧
    ¬ (∀ x ∈ (DB.mk [Customer.mk 1 "Alice"] [Account.mk 1 1 (-1)] [] 2 2 1 : DB).accounts,
        0 ≤ x.balance) := by
  refine ⟨by simp, by rfl, ?_⟩
  intro hall
  have := hall (Account.mk 1 1 (-1)) (by simp)
  norm_num at this

/-- C4 (amended): for every store state in which all account balances are
non-negative, after any successful createCustomer, any successful
createAccount whose initial balance is non-negative, and any successful
transferFunds whose amount is non-negative, every account balance is still
non-negative.  (The unamended claim fails because createAccount accepts a
negative initial balance and transferFunds accepts a negative amount.) -/
theorem C4_balances_nonneg (db : DB)
    (hdb : ∀ x ∈ db.accounts, 0 ≤ x.balance) :
    (∀ name res db2, Mutation.create_customer db name = (res, db2) →
        ∀ x ∈ db2.accounts, 0 ≤ x.balance) ∧
    (∀ cid b res db2, 0 ≤ b →
        Mutation.create_account db cid b = Except.ok (res, db2) →
        ∀ x ∈ db2.accounts, 0 ≤ x.balance) ∧
    (∀ fid tid amount res db2, 0 ≤ amount →
        Mutation.transfer_funds db fid tid amount = Except.ok (res, db2) →
        ∀ x ∈ db2.accounts, 0 ≤ x.balance) := by
  refine ⟨?_, ?_, ?_⟩
  · intro name res db2 h
    have h2 : db2 = (Mutation.create_customer db name).2 := by rw [h]
    rw [h2]
    exact hdb
  · intro cid b res db2 hb h
    rw [create_account_ok_inv db cid b res db2 h]
    intro x hx
    rcases List.mem_append.mp hx with hx | hx
    · exact hdb x hx
    · rcases List.mem_singleton.mp hx with rfl
      exact hb
  · intro fid tid amount res db2 h0 h
    obtain ⟨fa, ta, hfa, hta, hlt, hacc⟩ :=
      transfer_funds_ok_inv db fid tid amount res db2 h
    rw [hacc]
    have step1 : ∀ x ∈ updateFirst db.accounts fid (fun b => b - amount),
        0 ≤ x.balance := by
      refine updateFirst_nonneg db.accounts fid _ hdb ?_
      intro a hfind
      have hfa2 : List.find? (fun a => a.id == fid) db.accounts = some fa := hfa
      have haf : a = fa := Option.some.inj (hfind.symm.trans hfa2)
      rw [haf]
      exact sub_nonneg.mpr (not_lt.mp hlt)
    refine updateFirst_nonneg _ tid _ step1 ?_
    intro a hfind
    have hmem : a ∈ updateFirst db.accounts fid (fun b => b - amount) :=
      List.mem_of_find?_eq_some hfind
    exact add_nonneg (step1 a hmem) h0

/-- C4 witness: concrete instantiation through createAccount. -/
theorem C4_balances_nonneg_witness :
    (∀ x ∈ (DB.mk [Customer.mk 1 "Alice"] [Account.mk 1 1 10] [] 2 2 1 : DB).accounts,
        0 ≤ x.balance) ∧
    (∀ x ∈ (DB.mk [Customer.mk 1 "Alice"]
        [Account.mk 1 1 10, Account.mk 2 1 5] [] 2 3 1 : DB).accounts,
        0 ≤ x.balance) :=
  ⟨by decide,
   (C4_balances_nonneg (DB.mk [Customer.mk 1 "Alice"] [Account.mk 1 1 10] [] 2 2 1)
      (by decide)).2.1 1 5 (AccountType.mk 2 5 (CustomerType.mk 1 "Alice"))
      (DB.mk [Customer.mk 1 "Alice"] [Account.mk 1 1 10, Account.mk 2 1 5] [] 2 3 1)
      (by norm_num) rfl⟩

/-- C5: createAccount(customerId, b) fails with NotFoundError exactly when
no Customer with id customerId exists; for every existing customerId it
succeeds, persists a new Account with balance b, and the returned Account's
embedded customer id equals customerId. -/
theorem C5_create_account (db : DB) (cid : Nat) (b : ℚ) :
    (Mutation.create_account db cid b =
        Except.error (LedgerError.NotFoundError "Customer not found") ↔
      findCustomer db cid = none) ∧
    (∀ c, findCustomer db cid = some c →
      Mutation.create_account db cid b =
        Except.ok (AccountType.mk db.nextAccountId b (CustomerType.mk c.id c.name),
          { db with
              accounts := db.accounts ++ [Account.mk db.nextAccountId cid b],
              nextAccountId := db.nextAccountId + 1 }) ∧
      c.id = cid) := by
  constructor
  · cases h : findCustomer db cid with
    | none =>
      constructor
      · intro _; rfl
      · intro _
        unfold Mutation.create_account
        rw [h]
    | some c =>
      constructor
      · intro habs
        unfold Mutation.create_account at habs
        rw [h] at habs
        exact absurd habs (by simp)
      · intro habs; cases habs
  · intro c h
    constructor
    · unfold Mutation.create_account
      rw [h]
    · have hp := List.find?_some h
      exact beq_iff_eq.mp hp

/-- C5 witness: concrete instantiation of both conjuncts. -/
theorem C5_create_account_witness :
    (Mutation.create_account (DB.mk [Customer.mk 1 "Alice"] [] [] 2 1 1) 9 7 =
        Except.error (LedgerError.NotFoundError "Customer not found") ↔
      findCustomer (DB.mk [Customer.mk 1 "Alice"] [] [] 2 1 1) 9 = none) ∧
    (Mutation.create_account (DB.mk [Customer.mk 1 "Alice"] [] [] 2 1 1) 1 7 =
        Except.ok (AccountType.mk 1 7 (CustomerType.mk 1 "Alice"),
          DB.mk [Customer.mk 1 "Alice"] [Account.mk 1 1 7] [] 2 2 1) ∧
      (Customer.mk 1 "Alice").id = 1) :=
  ⟨(C5_create_account (DB.mk [Customer.mk 1 "Alice"] [] [] 2 1 1) 9 7).1,
   (C5_create_account (DB.mk [Customer.mk 1 "Alice"] [] [] 2 1 1) 1 7).2
     (Customer.mk 1 "Alice") rfl⟩

/-- C6 counterexample: createCustomer("") does not fail with
ValidationError; on a concrete store it succeeds and persists a new
Customer row with the empty name. -/
theorem C6_counterexample :
    Mutation.create_customer (DB.mk [] [] [] 1 1 1) "" =
      (CustomerType.mk 1 "", DB.mk [Customer.mk 1 ""] [] [] 2 1 1) := rfl

/-- C6 (amended): for every store state, createCustomer("") raises no
ValidationError: it succeeds, persists a new Customer row with the empty
name, and returns the created entity (the empty-name validation of the
spec is not enforced by the code). -/
theorem C6_empty_name_succeeds (db : DB) :
    Mutation.create_customer db "" =
      (CustomerType.mk db.nextCustomerId "",
       { db with
           customers := db.customers ++ [Customer.mk db.nextCustomerId ""],
           nextCustomerId := db.nextCustomerId + 1 }) := rfl

/-- C7: for every store state, calling listAccounts() twice with no
intervening write operation returns two identical sequences (same
accounts, same balances, same embedded customers, same order). -/
theorem C7_accounts_idempotent (db : DB) :
    (Query.accounts ((Query.accounts db).2)).1 = (Query.accounts db).1 := rfl

/-- C8: the three read operations listCustomers(), listAccounts(), and
listTransactions() have no side effects: each returns a projection of the
stored rows and leaves the entire store unchanged. -/
theorem C8_reads_pure (db : DB) :
    (Query.customers db).2 = db ∧
    (Query.accounts db).2 = db ∧
    (Query.transactions db).2 = db ∧
    (Query.customers db).1 = db.customers.map (fun c => CustomerType.mk c.id c.name) ∧
    (Query.accounts db).1 = db.accounts.mapM (accountView db) ∧
    (Query.transactions db).1 = db.transactions.mapM (transactionView db) :=
  ⟨rfl, rfl, rfl, rfl, rfl, rfl⟩
